import Mathlib

/-!
Verification of the `Attribute` data class (`src/src/gen/lib/attribute.py`) and of
the citation display tab (`src/gramps/gui/editors/displaytabs/citationembedlist.py`)
against the repository specification.

The embedding is shallow: Python methods become pure Lean functions, in-place
mutation becomes explicit state passing, and raised exceptions become `Option`
results or explicit outcome constructors.
-/

/-- A Python-style dynamic value, used for the persisted tuple format that
`Attribute.serialize` produces and `Attribute.unserialize` consumes. -/
inductive PyVal : Type
  | bool (b : Bool)
  | nat (n : Nat)
  | str (s : String)
  | tuple (l : List PyVal)
  | list (l : List PyVal)

/-- Modelled from the spec: `attrtype.py` (imported by `attribute.py` as
`AttributeType`) is not under `src/`.  The spec describes the `type` field as a
classified key drawn from a controlled vocabulary plus free-text custom values;
we model it as an integer code paired with a custom string, as the composite
serialization delegates to its own serialize/unserialize pair. -/
structure AttributeType where
  val : Nat
  string : String
  deriving DecidableEq, Repr

/-- Modelled from the spec: the default (empty classified) `AttributeType`
produced by the `AttributeType()` constructor. -/
def AttributeType.empty : AttributeType := ⟨0, ""⟩

/-- Modelled from the spec: the `AttributeType` component's own serialization
routine, producing its nested element of the persisted tuple. -/
def AttributeType.serialize (t : AttributeType) : PyVal :=
  .tuple [.nat t.val, .str t.string]

/-- Modelled from the spec: the `AttributeType` component's own unserialization
routine.  It overwrites both fields of the receiver from the nested data;
a wrong nested shape is a fatal decode error (`none`). -/
def AttributeType.unserialize (_t : AttributeType) (d : PyVal) : Option AttributeType :=
  match d with
  | .tuple [.nat n, .str s] => some ⟨n, s⟩
  | _ => none

/-- Modelled from the spec: `privacybase.py` is not under `src/`.  The spec
describes `privacy` as a boolean-like flag; its serialization routine emits the
flag itself. -/
def PrivacyBase.serialize (priv : Bool) : PyVal := .bool priv

/-- Modelled from the spec: the privacy component's unserialization routine;
a wrong nested shape is a fatal decode error (`none`). -/
def PrivacyBase.unserialize : PyVal → Option Bool
  | .bool b => some b
  | _ => none

/-- Decode a list of Python values that must all be strings (reference
handles); any other shape is a fatal decode error. -/
def strListOfPyVals : List PyVal → Option (List String)
  | [] => some []
  | .str s :: rest =>
      match strListOfPyVals rest with
      | some l => some (s :: l)
      | none => none
  | _ => none

/-- Modelled from the spec: `srcbase.py` is not under `src/`.  The spec
describes `source_list` as an ordered sequence of citation references (handles);
its serialization routine emits the sequence of handles. -/
def SourceBase.serialize (source_list : List String) : PyVal :=
  .list (source_list.map .str)

/-- Modelled from the spec: the source-list component's unserialization
routine; a wrong nested shape is a fatal decode error (`none`). -/
def SourceBase.unserialize : PyVal → Option (List String)
  | .list l => strListOfPyVals l
  | _ => none

/-- Modelled from the spec: `notebase.py` is not under `src/`.  The spec
describes `note_list` as an ordered sequence of note references (handles);
its serialization routine emits the sequence of handles. -/
def NoteBase.serialize (note_list : List String) : PyVal :=
  .list (note_list.map .str)

/-- Modelled from the spec: the note-list component's unserialization routine;
a wrong nested shape is a fatal decode error (`none`). -/
def NoteBase.unserialize : PyVal → Option (List String)
  | .list l => strListOfPyVals l
  | _ => none

/-- The `Attribute` class of `src/src/gen/lib/attribute.py`: a key/value pair
with privacy, source-citation and note associations.  The Python class obtains
`privacy`, `source_list` and `note_list` from its base classes; here they are
explicit fields. -/
structure Attribute where
  privacy : Bool
  source_list : List String
  note_list : List String
  type : AttributeType
  value : String
  deriving DecidableEq, Repr

/-- `Attribute.__init__(self, source=None)`: each base initializer copies its
field from `source` when one is given, and `type`/`value` are copied likewise;
otherwise all fields take their defaults (`AttributeType()` and `""`). -/
def Attribute.init : Option Attribute → Attribute
  | some s =>
      { privacy := s.privacy
        source_list := s.source_list
        note_list := s.note_list
        type := s.type
        value := s.value }
  | none =>
      { privacy := false
        source_list := []
        note_list := []
        type := AttributeType.empty
        value := "" }

/-- `Attribute.serialize`: the five-element persisted tuple
`(PrivacyBase.serialize(self), SourceBase.serialize(self),
NoteBase.serialize(self), self.type.serialize(), self.value)`. -/
def Attribute.serialize (a : Attribute) : PyVal :=
  .tuple [PrivacyBase.serialize a.privacy,
          SourceBase.serialize a.source_list,
          NoteBase.serialize a.note_list,
          a.type.serialize,
          .str a.value]

/-- `Attribute.unserialize(self, data)`: unpack
`(privacy, source_list, note_list, the_type, self.value) = data` (a fatal error
when the arity is not exactly five), then restore each field through the
corresponding base component's unserialization routine and assign `value`
directly. -/
def Attribute.unserialize (a : Attribute) (data : PyVal) : Option Attribute :=
  match data with
  | .tuple [privacy, source_list, note_list, the_type, value] =>
      match value with
      | .str v =>
          match PrivacyBase.unserialize privacy with
          | none => none
          | some p =>
            match SourceBase.unserialize source_list with
            | none => none
            | some sl =>
              match NoteBase.unserialize note_list with
              | none => none
              | some nl =>
                match a.type.unserialize the_type with
                | none => none
                | some t =>
                    some { privacy := p, source_list := sl, note_list := nl,
                           type := t, value := v }
      | _ => none
  | _ => none

/-- `Attribute.set_value`: sets the value of the Attribute instance. -/
def Attribute.set_value (a : Attribute) (v : String) : Attribute :=
  { a with value := v }

/-- `Attribute.get_value`: returns the value of the Attribute instance. -/
def Attribute.get_value (a : Attribute) : String := a.value

lemma strListOfPyVals_map_str (l : List String) :
    strListOfPyVals (l.map PyVal.str) = some l := by
  induction l with
  | nil => rfl
  | cons s rest ih => simp [strListOfPyVals, ih]

/-- Claim C1: for every valid `Attribute` instance `x` (and any receiver `a` on
which the decode method is invoked), `unserialize(serialize(x))` succeeds and
yields an `Attribute` equal to `x` in all five fields: `type`, `value`,
`privacy`, `source_list`, `note_list`. -/
theorem attribute_serialize_roundtrip (a x : Attribute) :
    a.unserialize x.serialize = some x := by
  simp [Attribute.serialize, Attribute.unserialize,
        PrivacyBase.serialize, PrivacyBase.unserialize,
        SourceBase.serialize, SourceBase.unserialize,
        NoteBase.serialize, NoteBase.unserialize,
        AttributeType.serialize, AttributeType.unserialize,
        strListOfPyVals_map_str]

/-- Claim C1 witness: the round trip at a concrete attribute. -/
theorem attribute_serialize_roundtrip_witness :
    (Attribute.init none).unserialize
        (Attribute.serialize
          { privacy := true, source_list := ["s1", "s2"], note_list := ["n1"],
            type := ⟨3, "custom"⟩, value := "v" }) =
      some { privacy := true, source_list := ["s1", "s2"], note_list := ["n1"],
             type := ⟨3, "custom"⟩, value := "v" } :=
  attribute_serialize_roundtrip (Attribute.init none)
    { privacy := true, source_list := ["s1", "s2"], note_list := ["n1"],
      type := ⟨3, "custom"⟩, value := "v" }

/-- Claim C2: `serialize()` returns a 5-element tuple whose positions are, in
order, the privacy data, the source-list data, the note-list data, the type
data, and the value, each of the first four produced by the corresponding base
component's own serialization routine. -/
theorem attribute_serialize_shape (a : Attribute) :
    a.serialize = PyVal.tuple [PrivacyBase.serialize a.privacy,
                               SourceBase.serialize a.source_list,
                               NoteBase.serialize a.note_list,
                               AttributeType.serialize a.type,
                               PyVal.str a.value] := rfl

/-- Claim C3: a persisted tuple whose arity is not exactly 5 is a fatal decode
error: `unserialize` fails (returns `none`, the embedding of an uncaught
unpacking error) rather than reconstructing an `Attribute`. -/
theorem attribute_unserialize_bad_arity (a : Attribute) (l : List PyVal)
    (h : l.length ≠ 5) : a.unserialize (PyVal.tuple l) = none := by
  rcases l with _ | ⟨p, _ | ⟨s, _ | ⟨n, _ | ⟨t, _ | ⟨v, _ | ⟨w, rest⟩⟩⟩⟩⟩⟩
  · rfl
  · rfl
  · rfl
  · rfl
  · rfl
  · simp at h
  · rfl

/-- Claim C3 witness: decoding an empty tuple fails. -/
theorem attribute_unserialize_bad_arity_witness :
    ([] : List PyVal).length ≠ 5 ∧
      (Attribute.init none).unserialize (PyVal.tuple []) = none :=
  ⟨by decide, attribute_unserialize_bad_arity (Attribute.init none) [] (by decide)⟩

/-- Claim C4: a default-constructed `Attribute` (no `source` argument) has its
`type` equal to the empty classified `AttributeType` and its `value` equal to
the empty string.  (`type` is a total field of the structure, hence always
present and non-null.) -/
theorem attribute_default_fields :
    (Attribute.init none).type = AttributeType.empty ∧
      (Attribute.init none).value = "" :=
  ⟨rfl, rfl⟩

/-- Claim C5: copy-construction (`Attribute(source=s)`) reproduces all five
fields of `s`.  The embedding is pure: constructing the copy does not mutate
`s`, whose fields are the same values before and after. -/
theorem attribute_copy_construct (s : Attribute) :
    (Attribute.init (some s)).privacy = s.privacy ∧
    (Attribute.init (some s)).source_list = s.source_list ∧
    (Attribute.init (some s)).note_list = s.note_list ∧
    (Attribute.init (some s)).type = s.type ∧
    (Attribute.init (some s)).value = s.value :=
  ⟨rfl, rfl, rfl, rfl, rfl⟩

/-- Claim C9: `set_value("")` followed by `get_value()` returns `""`; the empty
value is stored as-is and not normalized to a sentinel. -/
theorem attribute_set_empty_value (a : Attribute) :
    (a.set_value ("")).get_value = "" := rfl

/-- A genealogical record as obtained from the selector dialog or from a
database handle lookup in the citation tab: a `Source`, a `Citation`, or some
other object (the `isinstance` checks in the code distinguish exactly these). -/
inductive DbObject : Type
  | source
  | citation
  | other
  deriving DecidableEq, Repr

/-- Observable outcome of one event-handler flow of the citation tab:
nothing happens, an editor dialog is opened, a blocking warning dialog is
shown (the caught `WindowActiveError` branch of the sharing/dragging flows),
or an uncaught fatal error carrying a message propagates. -/
inductive FlowOutcome : Type
  | noop
  | editorOpened
  | warningDialog
  | fatal (msg : String)
  deriving DecidableEq, Repr

/-- The message of the uncaught `ValueError` raised by the citation tab when a
shared or dropped object is not of an accepted type. -/
def mustBeSourceOrCitation : String := "selection must be either source or citation"

/-- `CitationEmbedList.add_button_clicked`: opens `EditCitation` on a fresh
citation and source; a `WindowActiveError` (the editor window already being
active, modelled by `windowActive`) is caught with `pass`. -/
def add_button_clicked (windowActive : Bool) : FlowOutcome :=
  if windowActive then .noop else .editorOpened

/-- `CitationEmbedList.edit_button_clicked`: with a selected handle, opens
`EditCitation` on the selected citation; a `WindowActiveError` is caught with
`pass`.  Without a selection nothing happens. -/
def edit_button_clicked (selected : Option String) (windowActive : Bool) : FlowOutcome :=
  match selected with
  | none => .noop
  | some _ => if windowActive then .noop else .editorOpened

/-- `CitationEmbedList.share_button_clicked`: runs the citation selector; a
`Source` or a `Citation` result opens `EditCitation` (a `WindowActiveError`
being caught and answered with a blocking `WarningDialog`); any other truthy
result raises the uncaught `ValueError`.  A falsy result does nothing. -/
def share_button_clicked (sel : Option DbObject) (windowActive : Bool) : FlowOutcome :=
  match sel with
  | none => .noop
  | some .source => if windowActive then .warningDialog else .editorOpened
  | some .citation => if windowActive then .warningDialog else .editorOpened
  | some .other => .fatal mustBeSourceOrCitation

/-- `CitationEmbedList._handle_drag`: a dropped CITATION_LINK handle is looked
up with `get_citation_from_handle`; a `Citation` opens `EditCitation` (with a
`WarningDialog` on `WindowActiveError`); any other object raises the uncaught
`ValueError`.  A falsy handle does nothing. -/
def handle_drag (handle : Option String) (db : String → DbObject)
    (windowActive : Bool) : FlowOutcome :=
  match handle with
  | none => .noop
  | some h =>
      match db h with
      | .citation => if windowActive then .warningDialog else .editorOpened
      | _ => .fatal mustBeSourceOrCitation

/-- `CitationEmbedList.handle_extra_type`: a dropped SOURCE_LINK handle is
looked up with `get_source_from_handle`; a `Source` opens `EditCitation` (with
a `WarningDialog` on `WindowActiveError`); any other object raises the
uncaught `ValueError`.  A falsy handle does nothing. -/
def handle_extra_type (handle : Option String) (db : String → DbObject)
    (windowActive : Bool) : FlowOutcome :=
  match handle with
  | none => .noop
  | some h =>
      match db h with
      | .source => if windowActive then .warningDialog else .editorOpened
      | _ => .fatal mustBeSourceOrCitation

/-- Claim C6 counterexample: in the SOURCE_LINK drag flow (`handle_extra_type`)
the object obtained for the dropped handle IS a `Citation`, yet the fatal
error `selection must be either source or citation` is raised — contradicting
the claim that the error "is not raised" whenever the object is a Source or a
Citation. -/
theorem handle_extra_type_citation_fatal :
    (fun _ : String => DbObject.citation) ("h") = DbObject.citation ∧
      handle_extra_type (some ("h")) (fun _ => DbObject.citation) false =
        FlowOutcome.fatal mustBeSourceOrCitation :=
  ⟨rfl, rfl⟩

/-- Claim C6 (amended): in the share flow the fatal error
`selection must be either source or citation` is raised exactly when the
selected object is neither a `Source` nor a `Citation`; in the drag flows each
handler accepts only its expected type — `Citation` for CITATION_LINK drops,
`Source` for SOURCE_LINK drops — and raises the same uncaught fatal error for
every other object.  The error is never raised on the accepted type and is
caught nowhere in these flows. -/
theorem share_and_drag_fatal_iff (o : DbObject) (h : String)
    (db : String → DbObject) (w : Bool) :
    (share_button_clicked (some o) w = FlowOutcome.fatal mustBeSourceOrCitation
        ↔ o = DbObject.other) ∧
    (handle_drag (some h) db w = FlowOutcome.fatal mustBeSourceOrCitation
        ↔ db h ≠ DbObject.citation) ∧
    (handle_extra_type (some h) db w = FlowOutcome.fatal mustBeSourceOrCitation
        ↔ db h ≠ DbObject.source) := by
  refine ⟨?_, ?_, ?_⟩
  · cases o <;> cases w <;> simp [share_button_clicked]
  · rcases hdb : db h <;> cases w <;> simp [handle_drag, hdb]
  · rcases hdb : db h <;> cases w <;> simp [handle_extra_type, hdb]

/-- Claim C7: whenever opening the editor raises the window-already-active
condition (`windowActive = true`), the action aborts without the error
propagating: the add and edit flows silently no-op, while the share flow and
both drag flows surface a blocking warning dialog. -/
theorem window_active_handling (h : String) (db : String → DbObject) :
    add_button_clicked true = FlowOutcome.noop ∧
    edit_button_clicked (some h) true = FlowOutcome.noop ∧
    share_button_clicked (some DbObject.source) true = FlowOutcome.warningDialog ∧
    share_button_clicked (some DbObject.citation) true = FlowOutcome.warningDialog ∧
    (db h = DbObject.citation →
      handle_drag (some h) db true = FlowOutcome.warningDialog) ∧
    (db h = DbObject.source →
      handle_extra_type (some h) db true = FlowOutcome.warningDialog) := by
  refine ⟨rfl, rfl, rfl, rfl, ?_, ?_⟩
  · intro hdb; simp [handle_drag, hdb]
  · intro hdb; simp [handle_extra_type, hdb]

/-- Claim C7 witness: the handling at a concrete handle and database. -/
theorem window_active_handling_witness :
    add_button_clicked true = FlowOutcome.noop ∧
      handle_drag (some ("h")) (fun _ => DbObject.citation) true =
        FlowOutcome.warningDialog ∧
      handle_extra_type (some ("h")) (fun _ => DbObject.source) true =
        FlowOutcome.warningDialog :=
  ⟨(window_active_handling ("h") (fun _ => DbObject.citation)).1,
   (window_active_handling ("h") (fun _ => DbObject.citation)).2.2.2.2.1 rfl,
   (window_active_handling ("h") (fun _ => DbObject.source)).2.2.2.2.2 rfl⟩

/-- The mutable state of the citation tab that the database-change callbacks
and editor callbacks touch: the in-memory list `self.data` of citation handles
and the `self.changed` flag. -/
structure TabState where
  data : List String
  changed : Bool
  deriving DecidableEq, Repr

/-- `CitationEmbedList.object_added(value)`: appends the new citation handle
to `self.data`, sets `self.changed`, and calls `self.rebuild()` (the second
component of the result records that a visual refresh was requested). -/
def object_added (st : TabState) (value : String) : TabState × Bool :=
  ({ data := st.data ++ [value], changed := true }, true)

/-- Python's `list.count(handle)` on a list of handles. -/
def pyCount : List String → String → Nat
  | [], _ => 0
  | x :: rest, h => (if x = h then 1 else 0) + pyCount rest h

/-- Python's `list.remove(handle)`: drops the first occurrence of `handle`
(absence cannot arise here, as the caller guards with `count(handle) > 0`). -/
def pyRemove : List String → String → List String
  | [], _ => []
  | x :: rest, h => if x = h then rest else x :: pyRemove rest h

lemma pyCount_remove_eq (l : List String) (h : String) :
    pyCount (pyRemove l h) h = pyCount l h - 1 := by
  induction l with
  | nil => rfl
  | cons x rest ih =>
      by_cases hx : x = h
      · simp [pyRemove, pyCount, hx]
      · simp [pyRemove, pyCount, hx, ih]

/-- The `while self.data.count(handle) > 0: self.data.remove(handle)` loop of
`citation_delete`, threading the `rebuild` flag that the loop body sets. -/
def removeAllLoop (data : List String) (h : String) (rebuild : Bool) :
    List String × Bool :=
  if hc : 0 < pyCount data h then
    removeAllLoop (pyRemove data h) h true
  else
    (data, rebuild)
termination_by pyCount data h
decreasing_by
  rw [pyCount_remove_eq]
  exact Nat.sub_lt hc Nat.one_pos

/-- The `for handle in del_citation_handle_list` loop of `citation_delete`. -/
def citation_delete_loop : List String → List String → Bool → List String × Bool
  | [], data, rebuild => (data, rebuild)
  | h :: rest, data, rebuild =>
      let r := removeAllLoop data h rebuild
      citation_delete_loop rest r.1 r.2

/-- `CitationEmbedList.citation_delete(del_citation_handle_list)`: removes
every occurrence of each deleted handle from `self.data` and calls
`self.rebuild()` exactly when at least one removal happened (the second
component of the result records whether the rebuild was requested). -/
def citation_delete (st : TabState) (dels : List String) : TabState × Bool :=
  let r := citation_delete_loop dels st.data false
  ({ st with data := r.1 }, r.2)

lemma pyCount_pos_iff (l : List String) (h : String) :
    0 < pyCount l h ↔ h ∈ l := by
  induction l with
  | nil => simp [pyCount]
  | cons x rest ih =>
      by_cases hx : x = h
      · simp [pyCount, hx]
      · simp [pyCount, hx, ih, Ne.symm hx]

lemma pyRemove_filter (l : List String) (h : String) :
    (pyRemove l h).filter (fun x => decide (x ≠ h)) =
      l.filter (fun x => decide (x ≠ h)) := by
  induction l with
  | nil => rfl
  | cons x rest ih =>
      by_cases hx : x = h
      · simp [pyRemove, hx]
      · rw [show pyRemove (x :: rest) h = x :: pyRemove rest h from by
              simp [pyRemove, hx]]
        rw [List.filter_cons, List.filter_cons, ih]

lemma removeAllLoop_eq (l : List String) (h : String) (rb : Bool) :
    removeAllLoop l h rb =
      (l.filter (fun x => decide (x ≠ h)), rb || decide (h ∈ l)) := by
  generalize hn : pyCount l h = n
  induction n generalizing l rb with
  | zero =>
      rw [removeAllLoop]
      have hmem : h ∉ l := by
        rw [← pyCount_pos_iff, hn]; simp
      rw [dif_neg (by rw [hn]; simp)]
      rw [List.filter_eq_self.mpr (fun x hx => by
        simp; exact fun hxh => hmem (hxh ▸ hx))]
      simp [hmem]
  | succ n ih =>
      have hpos : 0 < pyCount l h := by rw [hn]; exact Nat.succ_pos n
      have hmem : h ∈ l := (pyCount_pos_iff l h).mp hpos
      rw [removeAllLoop, dif_pos hpos]
      rw [ih (pyRemove l h) true (by rw [pyCount_remove_eq, hn]; rfl)]
      rw [pyRemove_filter]
      simp [hmem]

lemma citation_delete_loop_eq (dels : List String) :
    ∀ (data : List String) (rb : Bool),
      citation_delete_loop dels data rb =
        (data.filter (fun x => decide (x ∉ dels)),
         rb || decide (∃ h, h ∈ dels ∧ h ∈ data)) := by
  induction dels with
  | nil => intro data rb; simp [citation_delete_loop]
  | cons h rest ih =>
      intro data rb
      rw [citation_delete_loop]
      simp only [removeAllLoop_eq, ih]
      rw [Prod.mk.injEq]
      constructor
      · rw [List.filter_filter]
        refine List.filter_congr (fun x _ => ?_)
        by_cases hxh : x = h
        · simp [hxh]
        · by_cases hxr : x ∈ rest <;> simp [hxh, hxr]
      · by_cases hmem : h ∈ data
        · simp [hmem]
        · simp [hmem]
          congr 1
          rw [decide_eq_decide]
          constructor
          · rintro ⟨g, hg1, hg2, hg3⟩
            exact ⟨g, hg1, hg2⟩
          · rintro ⟨g, hg1, hg2⟩
            exact ⟨g, hg1, hg2, fun hgh => hmem (hgh ▸ hg2)⟩

/-- Claim C8: `object_added` appends the new handle to the end of the tab's
in-memory handle list — the previously present handles are unchanged and keep
their original order, the length grows by one — and requests a visual refresh
of the display. -/
theorem object_added_appends (st : TabState) (value : String) :
    (object_added st value).1.data = st.data ++ [value] ∧
    (object_added st value).1.data.take st.data.length = st.data ∧
    (object_added st value).1.data.length = st.data.length + 1 ∧
    (object_added st value).2 = true := by
  refine ⟨rfl, ?_, by simp [object_added], rfl⟩
  simp [object_added, List.take_left]

/-- Claim C10: after `citation_delete`, no handle from the deleted-handle list
occurs in the tab's data list (every occurrence is removed, duplicates
included), the remaining handles keep their relative order (the result is the
order-preserving filter of the original list), and a visual rebuild is
requested exactly when at least one handle was removed. -/
theorem citation_delete_removes (st : TabState) (dels : List String) :
    (∀ h ∈ dels, h ∉ (citation_delete st dels).1.data) ∧
    (citation_delete st dels).1.data =
      st.data.filter (fun x => decide (x ∉ dels)) ∧
    ((citation_delete st dels).2 = true ↔ ∃ h ∈ dels, h ∈ st.data) := by
  have hloop := citation_delete_loop_eq dels st.data false
  refine ⟨?_, ?_, ?_⟩
  · intro h hh hmem
    have : (citation_delete st dels).1.data =
        st.data.filter (fun x => decide (x ∉ dels)) := by
      simp [citation_delete, hloop]
    rw [this] at hmem
    have := (List.mem_filter.mp hmem).2
    simp at this
    exact this hh
  · simp [citation_delete, hloop]
  · simp [citation_delete, hloop]

/-- Claim C10 witness: deleting one handle with duplicates at a concrete
state. -/
theorem citation_delete_removes_witness :
    "a" ∈ ["a"] ∧
      "a" ∉ (citation_delete ⟨["a", "b", "a"], false⟩ ["a"]).1.data ∧
      (citation_delete ⟨["a", "b", "a"], false⟩ ["a"]).1.data = ["b"] ∧
      (citation_delete ⟨["a", "b", "a"], false⟩ ["a"]).2 = true := by
  have hmain := citation_delete_removes ⟨["a", "b", "a"], false⟩ ["a"]
  refine ⟨by decide, hmain.1 ("a") (by decide), ?_, ?_⟩
  · rw [hmain.2.1]; decide
  · exact hmain.2.2.mpr ⟨"a", by decide, by decide⟩
